import Mathlib

/-!
Verification development for the endpoint health monitor.

The data model below is a shallow embedding of `src/app/models.py`
(SQLModel entities and request schemas).  Python `datetime` values are
modelled as `Nat` timestamps, `Decimal` as `ℚ` (exact arithmetic), JSON
object fields (`Dict[str, str]` / `Dict[str, Any]`) as association lists
of strings, and `Optional[T]` as `Option T`.

The monitoring engine itself (Probe Executor, Aggregator, Alert Engine,
Scheduler) is not present under `src/`; only its data model is.  Those
components are modelled from the spec, and each such definition carries a
doc comment starting with `Modelled from the spec:`.
-/

/-- Embeds `Endpoint` (models.py lines 9-29, table `endpoints`).
Field defaults from the source: `check_interval = 300`, `is_active = True`,
`expected_status_code = 200` (declared `Optional[int]`), `timeout_seconds = 30`,
`description = ""`, `tags = []`.  Note the persistent model declares no
`ge`/`le` bounds on `check_interval` (unlike `EndpointCreate`). -/
structure Endpoint where
  id : Option Int
  name : String
  url : String
  check_interval : Int
  is_active : Bool
  expected_status_code : Option Int
  timeout_seconds : Int
  description : String
  tags : List String
deriving DecidableEq

/-- Embeds `HealthCheck` (models.py lines 32-62, table `health_checks`).
`checked_at` is a `Nat` timestamp; `response_time_ms` and the phase timings
are `Option ℚ` (nullable `Decimal`). -/
structure HealthCheck where
  id : Option Int
  endpoint_id : Int
  checked_at : Nat
  status_code : Option Int
  response_time_ms : Option ℚ
  is_successful : Bool
  error_message : Option String
  error_type : Option String
  dns_lookup_time_ms : Option ℚ
  tcp_connect_time_ms : Option ℚ
  tls_handshake_time_ms : Option ℚ
  response_size_bytes : Option Int
  response_headers : Option (List (String × String))
deriving DecidableEq

/-- Embeds `UptimeMetric` (models.py lines 65-88, table `uptime_metrics`).
`total_checks` and `successful_checks` are Python `int` (default 0);
`uptime_percentage` is a NON-optional `Decimal` with default `Decimal("0")`
(models.py line 79) — there is no separate "no data" value in the schema.
The latency statistics are nullable. -/
structure UptimeMetric where
  id : Option Int
  endpoint_id : Int
  period_start : Nat
  period_end : Nat
  period_type : String
  total_checks : Int
  successful_checks : Int
  uptime_percentage : ℚ
  avg_response_time_ms : Option ℚ
  min_response_time_ms : Option ℚ
  max_response_time_ms : Option ℚ
  p95_response_time_ms : Option ℚ
  p99_response_time_ms : Option ℚ
deriving DecidableEq

/-- Embeds `Alert` (models.py lines 104-126, table `alerts`).
Defaults from the source: `severity = "medium"`, `is_active = True`,
`resolved_at = None`, `trigger_data = None`. -/
structure Alert where
  id : Option Int
  endpoint_id : Int
  alert_type : String
  severity : String
  title : String
  message : String
  is_active : Bool
  triggered_at : Nat
  resolved_at : Option Nat
  trigger_data : Option (List (String × String))
  created_at : Nat
deriving DecidableEq

/-- Embeds `EndpointCreate` (models.py lines 132-139, request schema).
The declared field constraints (`max_length`, `ge`, `le`) are captured by
`EndpointCreate.validate` below, mirroring the pydantic validation run at
construction of this non-table schema. -/
structure EndpointCreate where
  name : String
  url : String
  check_interval : Int
  expected_status_code : Option Int
  timeout_seconds : Int
  description : String
  tags : List String
deriving DecidableEq

/-- The pydantic field constraints declared on `EndpointCreate`
(models.py lines 133-139): `name` max_length 200, `url` max_length 1000,
`check_interval` in [60, 3600], `expected_status_code` in [100, 599] when
present (`None` passes, as pydantic applies `ge`/`le` only to present ints),
`timeout_seconds` in [1, 300], `description` max_length 500. -/
def EndpointCreate.validate (c : EndpointCreate) : Bool :=
  decide (c.name.length ≤ 200) &&
  decide (c.url.length ≤ 1000) &&
  decide (60 ≤ c.check_interval) && decide (c.check_interval ≤ 3600) &&
  (match c.expected_status_code with
   | none => true
   | some s => decide (100 ≤ s) && decide (s ≤ 599)) &&
  decide (1 ≤ c.timeout_seconds) && decide (c.timeout_seconds ≤ 300) &&
  decide (c.description.length ≤ 500)

/-- An `Endpoint` built with only the required fields (`name`, `url`),
every other field taking the default declared in models.py lines 12-26. -/
def defaultEndpoint (name url : String) : Endpoint :=
  { id := none
    name := name
    url := url
    check_interval := 300
    is_active := true
    expected_status_code := some 200
    timeout_seconds := 30
    description := ""
    tags := [] }

/-- An `EndpointCreate` built with only the required fields, every other
field taking the default declared in models.py lines 133-139. -/
def defaultEndpointCreate (name url : String) : EndpointCreate :=
  { name := name
    url := url
    check_interval := 300
    expected_status_code := some 200
    timeout_seconds := 30
    description := ""
    tags := [] }

/-- A directly constructed `Endpoint` whose `check_interval` is 5 — the
persistent `Endpoint` model (models.py line 15) declares no bound on
`check_interval`, so this is a well-formed `Endpoint` value. -/
def endpointInterval5 : Endpoint :=
  { defaultEndpoint "short" "http://example.com" with check_interval := 5 }

/-- An `EndpointCreate` whose `expected_status_code` is `None`; the schema
declares the field `Optional[int]` so this is well-formed at the public
interface. -/
def endpointCreateNoExpected : EndpointCreate :=
  { defaultEndpointCreate "anycode" "http://example.com" with
      expected_status_code := none }

/-! ### Probe Executor (spec §4.2) -/

/-- Modelled from the spec: the possible outcomes of one probe attempt
(Probe Executor, spec §4.2) — a completed HTTP response, a timeout, or a
connection-level failure (`kind` ∈ dns / connection / tls). The Probe
Executor itself is not under `src/`. -/
inductive ProbeOutcome where
  | completed (statusCode : Int) (responseTimeMs : ℚ)
  | timeout
  | failure (kind : String) (msg : String)
deriving DecidableEq

/-- Modelled from the spec: outcome classification of the Probe Executor
(spec §4.2), which is not under `src/`.  A completed response is successful
iff its status code equals `endpoint.expected_status_code`; otherwise
`error_type = "unexpected_status"` with the received status recorded.  A
timeout yields `error_type = "timeout"` with `response_time_ms = none`;
connection-level failures record their kind.  Phase timings and response
details not measured here are `none`. -/
def probeCheck (e : Endpoint) (eid : Int) (now : Nat) : ProbeOutcome → HealthCheck
  | .completed sc rt =>
    if e.expected_status_code = some sc then
      { id := none, endpoint_id := eid, checked_at := now
        status_code := some sc, response_time_ms := some rt
        is_successful := true, error_message := none, error_type := none
        dns_lookup_time_ms := none, tcp_connect_time_ms := none
        tls_handshake_time_ms := none, response_size_bytes := none
        response_headers := none }
    else
      { id := none, endpoint_id := eid, checked_at := now
        status_code := some sc, response_time_ms := some rt
        is_successful := false
        error_message := some "unexpected status code"
        error_type := some "unexpected_status"
        dns_lookup_time_ms := none, tcp_connect_time_ms := none
        tls_handshake_time_ms := none, response_size_bytes := none
        response_headers := none }
  | .timeout =>
      { id := none, endpoint_id := eid, checked_at := now
        status_code := none, response_time_ms := none
        is_successful := false
        error_message := some "request timed out"
        error_type := some "timeout"
        dns_lookup_time_ms := none, tcp_connect_time_ms := none
        tls_handshake_time_ms := none, response_size_bytes := none
        response_headers := none }
  | .failure kind msg =>
      { id := none, endpoint_id := eid, checked_at := now
        status_code := none, response_time_ms := none
        is_successful := false
        error_message := some msg
        error_type := some kind
        dns_lookup_time_ms := none, tcp_connect_time_ms := none
        tls_handshake_time_ms := none, response_size_bytes := none
        response_headers := none }

/-! ### Aggregator (spec §4.3) -/

/-- Rounding to two decimal places, as in the spec's
`round(successfulChecks/totalChecks*100, 2)`. -/
def round2 (q : ℚ) : ℚ := (round (q * 100) : ℤ) / 100

/-- Modelled from the spec: nearest-rank percentile (Aggregator, spec
§4.3), which is not under `src/`.  On the ascending-sorted sequence, the
0-based index is `ceil(p * n) - 1`, clamped to `[0, n-1]`; `none` on an
empty sequence. -/
def percentileNearestRank (sorted : List ℚ) (p : ℚ) : Option ℚ :=
  match sorted with
  | [] => none
  | _ =>
    let n := sorted.length
    let idx := min (⌈p * (n : ℚ)⌉ - 1).toNat (n - 1)
    sorted.get? idx

/-- Modelled from the spec: the Aggregator's row selection (spec §4.3) —
a check belongs to the period when it is the endpoint's and
`checked_at ∈ [period_start, period_end)`. -/
def inPeriod (eid : Int) (ps pe : Nat) (c : HealthCheck) : Bool :=
  decide (c.endpoint_id = eid) && decide (ps ≤ c.checked_at) &&
  decide (c.checked_at < pe)

/-- Modelled from the spec: the Aggregator (spec §4.3), which is not under
`src/`.  `total_checks` counts the period's checks, `successful_checks`
those with `is_successful`; latency statistics are computed only over the
non-null `response_time_ms` values, sorted ascending.  `uptime_percentage`
is `round(successful/total*100, 2)` for `total > 0` and the schema default
0 otherwise (models.py line 79 leaves no separate "no data" value). -/
def aggregate (eid : Int) (ps pe : Nat) (pt : String)
    (checks : List HealthCheck) : UptimeMetric :=
  let rows := checks.filter (inPeriod eid ps pe)
  let total := rows.length
  let succ := (rows.filter (fun c => c.is_successful)).length
  let rts := rows.filterMap (fun c => c.response_time_ms)
  let sorted := rts.insertionSort (· ≤ ·)
  { id := none
    endpoint_id := eid
    period_start := ps
    period_end := pe
    period_type := pt
    total_checks := (total : Int)
    successful_checks := (succ : Int)
    uptime_percentage :=
      if total = 0 then 0 else round2 ((succ : ℚ) / (total : ℚ) * 100)
    avg_response_time_ms :=
      if rts.isEmpty then none else some (rts.sum / (rts.length : ℚ))
    min_response_time_ms := sorted.head?
    max_response_time_ms := sorted.getLast?
    p95_response_time_ms := percentileNearestRank sorted (95 / 100)
    p99_response_time_ms := percentileNearestRank sorted (99 / 100) }

/-! ### Alert Engine (spec §4.4) -/

/-- Modelled from the spec: the Alert Engine's tunables (spec §4.4) —
consecutive-failure threshold for "down" (default 3), slow-response
threshold and consecutive count (default 3), and the set of error types
that trigger an "error" alert on a single check. -/
structure AlertConfig where
  down_threshold : Nat
  slow_threshold_ms : ℚ
  slow_consecutive : Nat
  critical_error_types : List String
deriving DecidableEq

/-- Modelled from the spec: the documented defaults — `down_threshold = 3`,
`slow_consecutive = 3`, critical error types tls and dns. -/
def defaultAlertConfig : AlertConfig :=
  { down_threshold := 3
    slow_threshold_ms := 1000
    slow_consecutive := 3
    critical_error_types := ["tls", "dns"] }

/-- Modelled from the spec: severity as a pure function of consecutive
failures for a "down" alert — critical from 10 consecutive failures,
high from the default threshold 3. -/
def severityForDown (cf : Nat) : String :=
  if 10 ≤ cf then "critical" else "high"

/-- Whether `a` is the Active alert of type `ty` for endpoint `eid`. -/
def activeMatch (eid : Int) (ty : String) (a : Alert) : Bool :=
  decide (a.endpoint_id = eid) && decide (a.alert_type = ty) && a.is_active

/-- Number of Active alerts for `(eid, ty)` in the store. -/
def activeCount (alerts : List Alert) (eid : Int) (ty : String) : Nat :=
  (alerts.filter (activeMatch eid ty)).length

/-- Modelled from the spec: the repository's `getActiveAlert(endpointId,
alertType)` — the Active alert for the pair, if any. -/
def getActiveAlert (alerts : List Alert) (eid : Int) (ty : String) : Option Alert :=
  alerts.find? (activeMatch eid ty)

/-- Erases `trigger_data`; two alert stores equal after `eraseTriggerData`
agree on everything except `trigger_data`. -/
def eraseTriggerData (a : Alert) : Alert :=
  { a with trigger_data := none }

/-- Modelled from the spec: triggering an alert (spec §4.4).  When an
Active alert for `(eid, ty)` already exists the re-trigger is a no-op
except for updating `trigger_data`; otherwise a new Active alert is
appended with `triggered_at = now` and `resolved_at = none`. -/
def triggerAlert (alerts : List Alert) (eid : Int) (ty sev title msg : String)
    (now : Nat) (data : Option (List (String × String))) : List Alert :=
  match getActiveAlert alerts eid ty with
  | some _ =>
    alerts.map (fun a =>
      if activeMatch eid ty a then { a with trigger_data := data } else a)
  | none =>
    alerts ++ [{ id := none, endpoint_id := eid, alert_type := ty
                 severity := sev, title := title, message := msg
                 is_active := true, triggered_at := now, resolved_at := none
                 trigger_data := data, created_at := now }]

/-- Modelled from the spec: resolving an alert (spec §4.4) — the Active
alert for `(eid, ty)` gets `resolved_at = now` and `is_active = false`;
history is never deleted. -/
def resolveAlert (alerts : List Alert) (eid : Int) (ty : String) (now : Nat) :
    List Alert :=
  alerts.map (fun a =>
    if activeMatch eid ty a then
      { a with is_active := false, resolved_at := some now }
    else a)

/-- Per-endpoint counter store of the engine (association list, defaulting
to 0 for absent endpoints). -/
def lookupCount : List (Int × Nat) → Int → Nat
  | [], _ => 0
  | p :: rest, eid => if p.1 = eid then p.2 else lookupCount rest eid

/-- Sets the counter of `eid`, dropping any previous entry. -/
def setCount (l : List (Int × Nat)) (eid : Int) (n : Nat) : List (Int × Nat) :=
  (eid, n) :: l.filter (fun p => !(decide (p.1 = eid)))

/-- Modelled from the spec: the running state of the Alert Engine — alert
store, per-endpoint `consecutiveFailures` (the counter surfaced as
`EndpointStatus.consecutive_failures`, models.py line 175), and the
per-endpoint count of consecutive slow successful checks. -/
structure EngineState where
  alerts : List Alert
  consec : List (Int × Nat)
  slow_consec : List (Int × Nat)
deriving DecidableEq

/-- The engine's start state: no alerts, all counters zero. -/
def initEngineState : EngineState := { alerts := [], consec := [], slow_consec := [] }

/-- Modelled from the spec: one step of the alert state machine (spec
§4.4), evaluated after every check result.  On failure the consecutive
counter increments; a "down" alert triggers at the threshold, an "error"
alert on a critical error type.  On success `consecutiveFailures` resets
to 0, the "down" and "error" alerts resolve, and the slow logic runs: a
response time above threshold extends the slow run (triggering "slow" at
K consecutive), one at or under threshold resolves "slow". -/
def processCheck (cfg : AlertConfig) (s : EngineState) (hc : HealthCheck) :
    EngineState :=
  let eid := hc.endpoint_id
  let now := hc.checked_at
  if hc.is_successful then
    let alerts1 := resolveAlert s.alerts eid "down" now
    let alerts2 := resolveAlert alerts1 eid "error" now
    match hc.response_time_ms with
    | some rt =>
      if cfg.slow_threshold_ms < rt then
        let sc := lookupCount s.slow_consec eid + 1
        let alerts3 :=
          if cfg.slow_consecutive ≤ sc then
            triggerAlert alerts2 eid "slow" "medium" "Endpoint slow"
              "response time above threshold" now
              (some [("alert", "slow")])
          else alerts2
        { alerts := alerts3
          consec := setCount s.consec eid 0
          slow_consec := setCount s.slow_consec eid sc }
      else
        { alerts := resolveAlert alerts2 eid "slow" now
          consec := setCount s.consec eid 0
          slow_consec := setCount s.slow_consec eid 0 }
    | none =>
      { alerts := resolveAlert alerts2 eid "slow" now
        consec := setCount s.consec eid 0
        slow_consec := setCount s.slow_consec eid 0 }
  else
    let cf := lookupCount s.consec eid + 1
    let alerts1 :=
      if cfg.down_threshold ≤ cf then
        triggerAlert s.alerts eid "down" (severityForDown cf) "Endpoint down"
          "consecutive failure threshold reached" now
          (some [("consecutive_failures", Nat.repr cf)])
      else s.alerts
    let alerts2 :=
      match hc.error_type with
      | some et =>
        if cfg.critical_error_types.contains et then
          triggerAlert alerts1 eid "error" "critical" "Critical probe error"
            "critical error type observed" now (some [("error_type", et)])
        else alerts1
      | none => alerts1
    { alerts := alerts2
      consec := setCount s.consec eid cf
      slow_consec := setCount s.slow_consec eid 0 }

/-- Runs the Alert Engine from the start state over a stream of check
results. -/
def runEngine (cfg : AlertConfig) (checks : List HealthCheck) : EngineState :=
  checks.foldl (processCheck cfg) initEngineState

/-! ### Scheduler (spec §4.1, §5) -/

/-- Modelled from the spec: per-endpoint scheduling state — the check
interval, the `nextDueAt` timestamp, and the number of probes currently
in flight for the endpoint (incremented on dispatch, decremented when the
probe returns). -/
structure EpSched where
  interval : Nat
  next_due : Nat
  in_flight : Nat
deriving DecidableEq

/-- Modelled from the spec: events of the scheduling loop — a scheduling
tick at time `now`, or the return of endpoint `eid`'s in-flight probe. -/
inductive SchedEvent where
  | tick (now : Nat)
  | probeReturn (eid : Int)
deriving DecidableEq

/-- Modelled from the spec: the scheduler's view of one endpoint on a tick
(spec §4.1 and §5).  A due endpoint with no probe in flight is dispatched
(`in_flight` increments, `next_due := now + interval`, scheduled before
the probe completes); a due endpoint whose probe is still in flight is
skipped, not queued: nothing changes, so the dispatch is retried on the
next tick. -/
def tickOne (now : Nat) (e : EpSched) : EpSched :=
  if e.next_due ≤ now ∧ e.in_flight = 0 then
    { e with in_flight := e.in_flight + 1, next_due := now + e.interval }
  else e

/-- Modelled from the spec: one step of the scheduling loop over the
per-endpoint table. -/
def schedStep (s : List (Int × EpSched)) : SchedEvent → List (Int × EpSched)
  | .tick now => s.map (fun p => (p.1, tickOne now p.2))
  | .probeReturn eid =>
    s.map (fun p =>
      if decide (p.1 = eid) then (p.1, { p.2 with in_flight := p.2.in_flight - 1 })
      else p)

/-- Modelled from the spec: on start every active endpoint enters the
table with `nextDueAt = now` (immediate first check) and no probe in
flight. -/
def initSched (now0 : Nat) (eps : List (Int × Nat)) : List (Int × EpSched) :=
  eps.map (fun p => (p.1, { interval := p.2, next_due := now0, in_flight := 0 }))

/-- Runs the scheduling loop from its start state over a sequence of
events. -/
def runSched (now0 : Nat) (eps : List (Int × Nat)) (events : List SchedEvent) :
    List (Int × EpSched) :=
  events.foldl schedStep (initSched now0 eps)

/-! ### Helper definitions for concrete witnesses -/

/-- An `Endpoint` with `expected_status_code = None`, otherwise default. -/
def endpointNoExpected : Endpoint :=
  { defaultEndpoint "nocode" "http://example.com" with expected_status_code := none }

/-! ### Claims -/

/-- Claim C2: for every `UptimeMetric` produced by the Aggregator,
`successful_checks ≤ total_checks`, and when `total_checks > 0` the
`uptime_percentage` equals `round(successful/total*100, 2)`. -/
theorem c2_aggregator_uptime (eid : Int) (ps pe : Nat) (pt : String)
    (checks : List HealthCheck) :
    (aggregate eid ps pe pt checks).successful_checks ≤
      (aggregate eid ps pe pt checks).total_checks ∧
    (0 < (aggregate eid ps pe pt checks).total_checks →
      (aggregate eid ps pe pt checks).uptime_percentage =
        round2 (((aggregate eid ps pe pt checks).successful_checks : ℚ) /
          ((aggregate eid ps pe pt checks).total_checks : ℚ) * 100)) := by
  constructor
  · simp only [aggregate]
    exact_mod_cast List.length_filter_le _ _
  · intro h
    simp only [aggregate] at h ⊢
    have hne : (checks.filter (inPeriod eid ps pe)).length ≠ 0 :=
      Nat.pos_iff_ne_zero.mp (by exact_mod_cast h)
    rw [if_neg hne]
    push_cast
    rfl

/-- Claim C2 witness: one successful check in the period gives
`successful = total = 1` and `uptime_percentage = round2 100`. -/
theorem c2_aggregator_uptime_witness :
    0 < (aggregate 1 0 3600 "hour"
      [probeCheck (defaultEndpoint "a" "http://x") 1 10 (.completed 200 25)]).total_checks ∧
    (aggregate 1 0 3600 "hour"
      [probeCheck (defaultEndpoint "a" "http://x") 1 10 (.completed 200 25)]).uptime_percentage =
      round2 (((aggregate 1 0 3600 "hour"
        [probeCheck (defaultEndpoint "a" "http://x") 1 10 (.completed 200 25)]).successful_checks : ℚ) /
        ((aggregate 1 0 3600 "hour"
          [probeCheck (defaultEndpoint "a" "http://x") 1 10 (.completed 200 25)]).total_checks : ℚ) * 100) :=
  ⟨by decide,
   (c2_aggregator_uptime 1 0 3600 "hour"
     [probeCheck (defaultEndpoint "a" "http://x") 1 10 (.completed 200 25)]).2 (by decide)⟩

/-- Claim C3: the source schema (models.py line 79) declares
`uptime_percentage` as a non-optional `Decimal` defaulting to `0`, so a
period with `total_checks = 0` is reported with the number 0, not with a
distinct "no data" value — the code conflates the two, which the spec
itself flags (§9) as a slip to fix.  This theorem evaluates the failing
input: an empty period yields `total_checks = 0` and
`uptime_percentage = 0`. -/
theorem c3_no_data_reported_as_zero :
    (aggregate 7 0 3600 "hour" []).total_checks = 0 ∧
    (aggregate 7 0 3600 "hour" []).uptime_percentage = 0 := by decide

/-- Claim C4: nearest-rank percentile — on a non-empty ascending-sorted
sequence the returned value is the element at 0-based index
`ceil(p*n) - 1` clamped to `[0, n-1]` (the computation is a pure function,
hence deterministic), and on `[10,20,30,40,50]` both p95 and p99 give 50. -/
theorem c4_percentile_nearest_rank :
    (∀ (sorted : List ℚ) (p : ℚ), sorted ≠ [] →
      percentileNearestRank sorted p =
        some (sorted.getD
          (min (⌈p * (sorted.length : ℚ)⌉ - 1).toNat (sorted.length - 1)) 0)) ∧
    percentileNearestRank [10, 20, 30, 40, 50] (95 / 100) = some 50 ∧
    percentileNearestRank [10, 20, 30, 40, 50] (99 / 100) = some 50 := by
  refine ⟨?_, ?_, ?_⟩
  · intro sorted p h
    have hlen : 0 < sorted.length := List.length_pos.mpr h
    have hidx : min (⌈p * (sorted.length : ℚ)⌉ - 1).toNat (sorted.length - 1) <
        sorted.length :=
      lt_of_le_of_lt (min_le_right _ _) (Nat.sub_lt hlen Nat.one_pos)
    cases sorted with
    | nil => exact absurd rfl h
    | cons a l =>
      simp only [percentileNearestRank]
      rw [List.getD_eq_getElem _ _ hidx, List.get?_eq_getElem?,
        List.getElem?_eq_getElem hidx]
  · have h : (⌈(19 : ℚ) / 4⌉ : ℤ) = 5 := by
      rw [Int.ceil_eq_iff] ; norm_num
    norm_num [percentileNearestRank, h]
    rfl
  · have h : (⌈(99 : ℚ) / 20⌉ : ℤ) = 5 := by
      rw [Int.ceil_eq_iff] ; norm_num
    norm_num [percentileNearestRank, h]
    rfl

/-- Claim C4 witness: the general index characterization applied to the
concrete sequence `[10,20,30,40,50]` at p95. -/
theorem c4_percentile_nearest_rank_witness :
    ([10, 20, 30, 40, 50] : List ℚ) ≠ [] ∧
    percentileNearestRank [10, 20, 30, 40, 50] (95 / 100) =
      some (([10, 20, 30, 40, 50] : List ℚ).getD
        (min (⌈(95 / 100 : ℚ) * (([10, 20, 30, 40, 50] : List ℚ).length : ℚ)⌉ - 1).toNat
          (([10, 20, 30, 40, 50] : List ℚ).length - 1)) 0) :=
  ⟨by decide,
   c4_percentile_nearest_rank.1 [10, 20, 30, 40, 50] (95 / 100) (by decide)⟩

/-- Claim C5: a completed response is successful iff the received status
code equals `endpoint.expected_status_code` (whose default is 200); on a
mismatch the check is recorded unsuccessful with
`error_type = "unexpected_status"` and the received status code. -/
theorem c5_status_classification (e : Endpoint) (eid : Int) (now : Nat)
    (sc : Int) (rt : ℚ) :
    ((probeCheck e eid now (.completed sc rt)).is_successful = true ↔
      e.expected_status_code = some sc) ∧
    (e.expected_status_code ≠ some sc →
      (probeCheck e eid now (.completed sc rt)).is_successful = false ∧
      (probeCheck e eid now (.completed sc rt)).error_type =
        some "unexpected_status" ∧
      (probeCheck e eid now (.completed sc rt)).status_code = some sc) ∧
    (∀ n u : String, (defaultEndpoint n u).expected_status_code = some 200) := by
  by_cases hx : e.expected_status_code = some sc <;>
    simp [probeCheck, hx, defaultEndpoint]

/-- Claim C5 witness: status 500 against the default expectation 200 is
recorded unsuccessful, with `error_type = "unexpected_status"` and
`status_code = 500`. -/
theorem c5_status_classification_witness :
    (probeCheck (defaultEndpoint "api" "http://x") 1 0
      (.completed 500 12)).is_successful = false ∧
    (probeCheck (defaultEndpoint "api" "http://x") 1 0
      (.completed 500 12)).error_type = some "unexpected_status" ∧
    (probeCheck (defaultEndpoint "api" "http://x") 1 0
      (.completed 500 12)).status_code = some 500 :=
  (c5_status_classification (defaultEndpoint "api" "http://x") 1 0 500 12).2.1
    (by decide)

/-- Claim C8 counterexample: the persistent `Endpoint` model (models.py
line 15) declares no bound on `check_interval`, so an `Endpoint` with
`check_interval = 5` is constructible — refuting the claim that no
endpoint with `check_interval` outside `[60, 3600]` can be constructed. -/
theorem c8_endpoint_interval_counterexample :
    endpointInterval5.check_interval = 5 ∧
    ¬ (60 ≤ endpointInterval5.check_interval ∧
       endpointInterval5.check_interval ≤ 3600) := by decide

/-- Claim C8 amended: the `[60, 3600]` bound on `check_interval` is
declared only on the request schemas (`EndpointCreate`, models.py line
135): every `EndpointCreate` accepted by its declared validation satisfies
`60 ≤ check_interval ≤ 3600`, while the persistent `Endpoint` entity
itself carries no such bound. -/
theorem c8_create_interval_bounds (c : EndpointCreate)
    (h : c.validate = true) :
    60 ≤ c.check_interval ∧ c.check_interval ≤ 3600 := by
  simp only [EndpointCreate.validate, Bool.and_eq_true, decide_eq_true_eq] at h
  exact ⟨h.1.1.1.1.1.2, h.1.1.1.1.2⟩

/-- Claim C8 witness: the all-defaults `EndpointCreate` validates and its
interval lies in the bounds. -/
theorem c8_create_interval_bounds_witness :
    (defaultEndpointCreate "svc" "http://x").validate = true ∧
    60 ≤ (defaultEndpointCreate "svc" "http://x").check_interval ∧
    (defaultEndpointCreate "svc" "http://x").check_interval ≤ 3600 :=
  ⟨by decide, c8_create_interval_bounds (defaultEndpointCreate "svc" "http://x")
    (by decide)⟩

/-- Claim C10: both `Endpoint` and `EndpointCreate` declare
`expected_status_code` optional with default 200 — construction without
the field yields `some 200`, a value of `none` is well-formed at the
public interface (it passes the declared `EndpointCreate` validation) —
and for `expected_status_code = none` the success criterion
`statusCode == expectedStatusCode` compares against no expected code, so
no completed response is classified successful. -/
theorem c10_expected_status_optional :
    (∀ n u : String, (defaultEndpoint n u).expected_status_code = some 200) ∧
    (∀ n u : String,
      (defaultEndpointCreate n u).expected_status_code = some 200) ∧
    endpointCreateNoExpected.expected_status_code = none ∧
    EndpointCreate.validate endpointCreateNoExpected = true ∧
    (∀ (e : Endpoint) (eid : Int) (now : Nat) (sc : Int) (rt : ℚ),
      e.expected_status_code = none →
      ¬ e.expected_status_code = some sc ∧
      (probeCheck e eid now (.completed sc rt)).is_successful = false) := by
  refine ⟨fun n u => rfl, fun n u => rfl, rfl, by decide, ?_⟩
  intro e eid now sc rt h
  simp [probeCheck, h]

/-- Claim C10 witness: the final clause applied to a concrete endpoint
with `expected_status_code = none` and status 200. -/
theorem c10_expected_status_optional_witness :
    endpointNoExpected.expected_status_code = none ∧
    (¬ endpointNoExpected.expected_status_code = some 200 ∧
     (probeCheck endpointNoExpected 1 0 (.completed 200 5)).is_successful = false) :=
  ⟨rfl, c10_expected_status_optional.2.2.2.2 endpointNoExpected 1 0 200 5 rfl⟩

/-- Claim C6: a check with `response_time_ms = none` (as a timeout
produces, final conjunct) still counts toward `total_checks` and the
success counts that determine the uptime percentage, while every latency
statistic (avg/min/max/p95/p99) is unchanged by its presence — the
latency inputs are only the non-null response times. -/
theorem c6_latency_excludes_null (eid : Int) (ps pe : Nat) (pt : String)
    (checks : List HealthCheck) (c : HealthCheck)
    (hin : inPeriod eid ps pe c = true) (hnull : c.response_time_ms = none) :
    ((aggregate eid ps pe pt (checks ++ [c])).total_checks =
      (aggregate eid ps pe pt checks).total_checks + 1 ∧
    (aggregate eid ps pe pt (checks ++ [c])).successful_checks =
      (aggregate eid ps pe pt checks).successful_checks +
        (if c.is_successful then 1 else 0) ∧
    (aggregate eid ps pe pt (checks ++ [c])).avg_response_time_ms =
      (aggregate eid ps pe pt checks).avg_response_time_ms ∧
    (aggregate eid ps pe pt (checks ++ [c])).min_response_time_ms =
      (aggregate eid ps pe pt checks).min_response_time_ms ∧
    (aggregate eid ps pe pt (checks ++ [c])).max_response_time_ms =
      (aggregate eid ps pe pt checks).max_response_time_ms ∧
    (aggregate eid ps pe pt (checks ++ [c])).p95_response_time_ms =
      (aggregate eid ps pe pt checks).p95_response_time_ms ∧
    (aggregate eid ps pe pt (checks ++ [c])).p99_response_time_ms =
      (aggregate eid ps pe pt checks).p99_response_time_ms) ∧
    (∀ (e : Endpoint) (eid2 : Int) (now : Nat),
      (probeCheck e eid2 now .timeout).error_type = some "timeout" ∧
      (probeCheck e eid2 now .timeout).response_time_ms = none ∧
      (probeCheck e eid2 now .timeout).is_successful = false) := by
  have h1 : (checks ++ [c]).filter (inPeriod eid ps pe) =
      checks.filter (inPeriod eid ps pe) ++ [c] := by
    rw [List.filter_append]
    simp [List.filter, hin]
  have h2 : ((checks ++ [c]).filter (inPeriod eid ps pe)).filterMap
      (fun x => x.response_time_ms) =
      (checks.filter (inPeriod eid ps pe)).filterMap
        (fun x => x.response_time_ms) := by
    rw [h1, List.filterMap_append]
    simp [hnull]
  refine ⟨⟨?_, ?_, ?_, ?_, ?_, ?_, ?_⟩, fun e eid2 now => ⟨rfl, rfl, rfl⟩⟩
  · simp only [aggregate, h1, List.length_append, List.length_cons,
      List.length_nil]
    push_cast
    ring
  · simp only [aggregate, h1, List.filter_append]
    by_cases hs : c.is_successful <;>
      simp [hs, List.length_append]
  · simp only [aggregate, h2]
  · simp only [aggregate, h2]
  · simp only [aggregate, h2]
  · simp only [aggregate, h2]
  · simp only [aggregate, h2]

/-- Claim C6 witness: appending a concrete timeout check to one completed
check leaves every latency statistic unchanged while `total_checks`
grows by one. -/
theorem c6_latency_excludes_null_witness :
    inPeriod 1 0 3600 (probeCheck (defaultEndpoint "a" "http://x") 1 20 .timeout)
      = true ∧
    (aggregate 1 0 3600 "hour"
      ([probeCheck (defaultEndpoint "a" "http://x") 1 10 (.completed 200 25)] ++
        [probeCheck (defaultEndpoint "a" "http://x") 1 20 .timeout])).total_checks =
    (aggregate 1 0 3600 "hour"
      [probeCheck (defaultEndpoint "a" "http://x") 1 10 (.completed 200 25)]).total_checks
      + 1 :=
  ⟨by decide,
   ((c6_latency_excludes_null 1 0 3600 "hour"
      [probeCheck (defaultEndpoint "a" "http://x") 1 10 (.completed 200 25)]
      (probeCheck (defaultEndpoint "a" "http://x") 1 20 .timeout)
      (by decide) (by decide)).1).1⟩

/-- Each scheduling step keeps every endpoint's in-flight probe count at
or below one: a tick only dispatches for an endpoint whose count is zero,
and a probe return decrements. -/
theorem schedStep_flight_le (s : List (Int × EpSched)) (ev : SchedEvent)
    (h : ∀ p ∈ s, p.2.in_flight ≤ 1) :
    ∀ p ∈ schedStep s ev, p.2.in_flight ≤ 1 := by
  intro p hp
  cases ev with
  | tick now =>
    simp only [schedStep, List.mem_map] at hp
    obtain ⟨q, hq, rfl⟩ := hp
    simp only [tickOne]
    split
    · next hcond => simp [hcond.2]
    · exact h q hq
  | probeReturn eid =>
    simp only [schedStep, List.mem_map] at hp
    obtain ⟨q, hq, rfl⟩ := hp
    split
    · exact le_trans (Nat.sub_le _ _) (h q hq)
    · exact h q hq

/-- The bound propagates along any event sequence. -/
theorem sched_foldl_flight_le (events : List SchedEvent)
    (s : List (Int × EpSched)) (h : ∀ p ∈ s, p.2.in_flight ≤ 1) :
    ∀ p ∈ events.foldl schedStep s, p.2.in_flight ≤ 1 := by
  induction events generalizing s with
  | nil => exact h
  | cons ev rest ih => exact ih (schedStep s ev) (schedStep_flight_le s ev h)

/-- Claim C9: in every reachable state of the scheduling loop at most one
probe per endpoint is in flight, and a tick reaching an endpoint whose
probe has not returned changes nothing for it — the dispatch is skipped,
not queued (`next_due` is left as is, so it is retried next tick). -/
theorem c9_skip_dont_queue :
    (∀ (now0 : Nat) (eps : List (Int × Nat)) (events : List SchedEvent),
      ∀ p ∈ runSched now0 eps events, p.2.in_flight ≤ 1) ∧
    (∀ (now : Nat) (e : EpSched), e.in_flight ≠ 0 → tickOne now e = e) := by
  constructor
  · intro now0 eps events
    apply sched_foldl_flight_le
    intro p hp
    simp only [initSched, List.mem_map] at hp
    obtain ⟨q, hq, rfl⟩ := hp
    exact Nat.zero_le 1
  · intro now e he
    simp only [tickOne]
    rw [if_neg]
    exact fun hc => he hc.2

/-- Claim C9 witness: one endpoint, two immediate ticks — the second tick
finds the probe of the first still in flight and changes nothing; the
in-flight count stays 1. -/
theorem c9_skip_dont_queue_witness :
    ((1 : Int), ({ interval := 60, next_due := 60, in_flight := 1 } : EpSched)) ∈
      runSched 0 [(1, 60)] [.tick 0, .tick 1] ∧
    ({ interval := 60, next_due := 0, in_flight := 1 } : EpSched).in_flight ≠ 0 ∧
    ((1 : Int), ({ interval := 60, next_due := 60, in_flight := 1 } : EpSched)).2.in_flight ≤ 1 ∧
    tickOne 1 { interval := 60, next_due := 0, in_flight := 1 } =
      { interval := 60, next_due := 0, in_flight := 1 } :=
  ⟨by decide, by decide,
   c9_skip_dont_queue.1 0 [(1, 60)] [.tick 0, .tick 1]
     ((1 : Int), ({ interval := 60, next_due := 60, in_flight := 1 } : EpSched))
     (by decide),
   c9_skip_dont_queue.2 1 { interval := 60, next_due := 0, in_flight := 1 }
     (by decide)⟩

/-! ### Alert store lemmas -/

/-- A resolved alert is no longer an Active match for any pair. -/
theorem activeMatch_resolved (eid : Int) (ty : String) (a : Alert) (r : Nat) :
    activeMatch eid ty { a with is_active := false, resolved_at := some r } = false := by
  simp [activeMatch]

/-- Updating `trigger_data` does not affect Active matching. -/
theorem activeMatch_update_data (eid : Int) (ty : String) (a : Alert)
    (d : Option (List (String × String))) :
    activeMatch eid ty { a with trigger_data := d } = activeMatch eid ty a := by
  simp [activeMatch]

/-- Unfolds `activeCount` over a cons cell. -/
theorem activeCount_cons (a : Alert) (l : List Alert) (eid : Int) (ty : String) :
    activeCount (a :: l) eid ty =
      (if activeMatch eid ty a then 1 else 0) + activeCount l eid ty := by
  by_cases h : activeMatch eid ty a <;> simp [activeCount, List.filter, h, Nat.add_comm]

/-- `activeCount` distributes over append. -/
theorem activeCount_append (l1 l2 : List Alert) (eid : Int) (ty : String) :
    activeCount (l1 ++ l2) eid ty = activeCount l1 eid ty + activeCount l2 eid ty := by
  simp [activeCount, List.filter_append]

/-- When `getActiveAlert` finds nothing, no Active alert for the pair is
in the store. -/
theorem activeCount_zero_of_none (alerts : List Alert) (e : Int) (t : String)
    (h : getActiveAlert alerts e t = none) : activeCount alerts e t = 0 := by
  rw [getActiveAlert, List.find?_eq_none] at h
  rw [activeCount, List.length_eq_zero, List.filter_eq_nil_iff]
  exact h

/-- Unfolds `resolveAlert` over a cons cell. -/
theorem resolveAlert_cons (a : Alert) (l : List Alert) (e : Int) (t : String) (now : Nat) :
    resolveAlert (a :: l) e t now =
      (if activeMatch e t a then { a with is_active := false, resolved_at := some now }
       else a) :: resolveAlert l e t now := by
  simp [resolveAlert]

/-- Resolving never increases the number of Active alerts of any pair. -/
theorem activeCount_resolveAlert_le (alerts : List Alert) (e : Int) (t : String)
    (now : Nat) (eid : Int) (ty : String) :
    activeCount (resolveAlert alerts e t now) eid ty ≤ activeCount alerts eid ty := by
  induction alerts with
  | nil => exact Nat.le_refl _
  | cons a l ih =>
    rw [resolveAlert_cons, activeCount_cons, activeCount_cons]
    by_cases h : activeMatch e t a
    · rw [if_pos h, activeMatch_resolved]
      simp only [Bool.false_eq_true, if_false]
      split <;> omega
    · rw [if_neg h]
      exact Nat.add_le_add_left ih _

/-- A re-trigger's `trigger_data` update leaves every pair's Active count
unchanged. -/
theorem activeCount_map_update (alerts : List Alert) (e : Int) (t : String)
    (d : Option (List (String × String))) (eid : Int) (ty : String) :
    activeCount (alerts.map (fun a =>
      if activeMatch e t a then { a with trigger_data := d } else a)) eid ty =
      activeCount alerts eid ty := by
  induction alerts with
  | nil => rfl
  | cons a l ih =>
    rw [List.map_cons, activeCount_cons, activeCount_cons, ih]
    by_cases h : activeMatch e t a
    · rw [if_pos h, activeMatch_update_data]
    · rw [if_neg h]

/-- Triggering preserves the at-most-one-Active bound for every pair: a
re-trigger only updates `trigger_data`, and a fresh trigger appends one
Active alert for a pair that had none. -/
theorem activeCount_triggerAlert_le (alerts : List Alert) (e : Int)
    (t sev ti m : String) (now : Nat) (d : Option (List (String × String)))
    (eid : Int) (ty : String) (h : activeCount alerts eid ty ≤ 1) :
    activeCount (triggerAlert alerts e t sev ti m now d) eid ty ≤ 1 := by
  unfold triggerAlert
  cases hga : getActiveAlert alerts e t with
  | some a =>
    rw [activeCount_map_update]
    exact h
  | none =>
    rw [activeCount_append, activeCount_cons]
    by_cases hm : activeMatch eid ty
        { id := none, endpoint_id := e, alert_type := t, severity := sev
          title := ti, message := m, is_active := true, triggered_at := now
          resolved_at := none, trigger_data := d, created_at := now }
    · have he : e = eid ∧ t = ty := by
        simpa [activeMatch] using hm
      have h0 : activeCount alerts eid ty = 0 := by
        rw [← he.1, ← he.2]
        exact activeCount_zero_of_none alerts e t hga
      rw [if_pos hm, h0]
      simp [activeCount]
    · rw [if_neg hm]
      simpa [activeCount] using h

/-- One engine step preserves the at-most-one-Active-alert bound for
every `(endpoint, alertType)` pair. -/
theorem processCheck_activeCount_le (cfg : AlertConfig) (s : EngineState)
    (hc : HealthCheck) (h : ∀ eid ty, activeCount s.alerts eid ty ≤ 1) :
    ∀ eid ty, activeCount (processCheck cfg s hc).alerts eid ty ≤ 1 := by
  intro eid ty
  have hres2 : activeCount (resolveAlert (resolveAlert s.alerts hc.endpoint_id
      "down" hc.checked_at) hc.endpoint_id "error" hc.checked_at) eid ty ≤ 1 :=
    le_trans (activeCount_resolveAlert_le _ _ _ _ _ _)
      (le_trans (activeCount_resolveAlert_le _ _ _ _ _ _) (h eid ty))
  unfold processCheck
  dsimp only
  split
  · split
    · split
      · split
        · exact activeCount_triggerAlert_le _ _ _ _ _ _ _ _ _ _ hres2
        · exact hres2
      · exact le_trans (activeCount_resolveAlert_le _ _ _ _ _ _) hres2
    · exact le_trans (activeCount_resolveAlert_le _ _ _ _ _ _) hres2
  · have hdown : activeCount
        (if cfg.down_threshold ≤ lookupCount s.consec hc.endpoint_id + 1 then
          triggerAlert s.alerts hc.endpoint_id "down"
            (severityForDown (lookupCount s.consec hc.endpoint_id + 1))
            "Endpoint down" "consecutive failure threshold reached" hc.checked_at
            (some [("consecutive_failures",
              Nat.repr (lookupCount s.consec hc.endpoint_id + 1))])
        else s.alerts) eid ty ≤ 1 := by
      split
      · exact activeCount_triggerAlert_le _ _ _ _ _ _ _ _ _ _ (h eid ty)
      · exact h eid ty
    split
    · split
      · exact activeCount_triggerAlert_le _ _ _ _ _ _ _ _ _ _ hdown
      · exact hdown
    · exact hdown

/-- The bound propagates along any stream of check results. -/
theorem foldl_activeCount_le (cfg : AlertConfig) (checks : List HealthCheck)
    (s : EngineState) (h : ∀ eid ty, activeCount s.alerts eid ty ≤ 1) :
    ∀ eid ty, activeCount (checks.foldl (processCheck cfg) s).alerts eid ty ≤ 1 := by
  induction checks generalizing s with
  | nil => exact h
  | cons hc rest ih =>
    exact ih (processCheck cfg s hc) (processCheck_activeCount_le cfg s hc h)

/-- A re-trigger while an Active alert exists changes nothing except
`trigger_data`: after erasing `trigger_data` the stores are equal. -/
theorem triggerAlert_existing_only_data (alerts : List Alert) (e : Int)
    (t sev ti m : String) (now : Nat) (d : Option (List (String × String)))
    (a : Alert) (h : getActiveAlert alerts e t = some a) :
    (triggerAlert alerts e t sev ti m now d).map eraseTriggerData =
      alerts.map eraseTriggerData := by
  unfold triggerAlert
  rw [h, List.map_map]
  apply List.map_congr_left
  intro x hx
  by_cases hm : activeMatch e t x <;> simp [eraseTriggerData, hm, Function.comp]

/-- A concrete Active "down" alert for endpoint 1, used as a witness. -/
def alert0 : Alert :=
  { id := none, endpoint_id := 1, alert_type := "down", severity := "high"
    title := "Endpoint down", message := "m", is_active := true
    triggered_at := 0, resolved_at := none, trigger_data := none, created_at := 0 }

/-- Claim C1: in every state the Alert Engine reaches from its start
state, at most one Active alert exists per `(endpoint, alertType)` pair;
and re-triggering a pair that already has an Active alert changes nothing
except `trigger_data` (in particular it creates no second Active alert). -/
theorem c1_active_alert_unique :
    (∀ (cfg : AlertConfig) (checks : List HealthCheck) (eid : Int) (ty : String),
      activeCount (runEngine cfg checks).alerts eid ty ≤ 1) ∧
    (∀ (alerts : List Alert) (eid : Int) (ty sev ti msg : String) (now : Nat)
       (d : Option (List (String × String))) (a : Alert),
      getActiveAlert alerts eid ty = some a →
      (triggerAlert alerts eid ty sev ti msg now d).map eraseTriggerData =
        alerts.map eraseTriggerData) := by
  constructor
  · intro cfg checks eid ty
    exact foldl_activeCount_le cfg checks initEngineState
      (fun eid' ty' => Nat.zero_le 1) eid ty
  · intro alerts eid ty sev ti msg now d a h
    exact triggerAlert_existing_only_data alerts eid ty sev ti msg now d a h

/-- Claim C1 witness: re-triggering "down" for endpoint 1 while `alert0`
is Active only rewrites `trigger_data`. -/
theorem c1_active_alert_unique_witness :
    getActiveAlert [alert0] 1 "down" = some alert0 ∧
    (triggerAlert [alert0] 1 "down" "high" "t" "m" 5
       (some [("k", "v")])).map eraseTriggerData =
      [alert0].map eraseTriggerData ∧
    activeCount (runEngine defaultAlertConfig []).alerts 1 "down" ≤ 1 :=
  ⟨by decide,
   c1_active_alert_unique.2 [alert0] 1 "down" "high" "t" "m" 5
     (some [("k", "v")]) alert0 (by decide),
   c1_active_alert_unique.1 defaultAlertConfig [] 1 "down"⟩

/-- A failed (timed-out) check at time `t` for endpoint 1, used as a
witness. -/
def failCheckAt (t : Nat) : HealthCheck :=
  { id := none, endpoint_id := 1, checked_at := t, status_code := none
    response_time_ms := none, is_successful := false
    error_message := some "request timed out", error_type := some "timeout"
    dns_lookup_time_ms := none, tcp_connect_time_ms := none
    tls_handshake_time_ms := none, response_size_bytes := none
    response_headers := none }

/-- A successful check at time `t` for endpoint 1, used as a witness. -/
def okCheckAt (t : Nat) : HealthCheck :=
  { id := none, endpoint_id := 1, checked_at := t, status_code := some 200
    response_time_ms := some 50, is_successful := true
    error_message := none, error_type := none
    dns_lookup_time_ms := none, tcp_connect_time_ms := none
    tls_handshake_time_ms := none, response_size_bytes := none
    response_headers := none }

/-- Claim C7: after three consecutive failed (timeout) checks for an
endpoint the engine has an Active "down" alert with default severity
"high" and `consecutiveFailures = 3`; processing the next successful
check resolves it — no Active "down" alert remains, the stored alert has
`is_active = false` and `resolved_at` equal to the resolving check's
time — and `consecutiveFailures` resets to 0. -/
theorem c7_down_alert_lifecycle (eid : Int) (hc1 hc2 hc3 hc4 : HealthCheck)
    (h1e : hc1.endpoint_id = eid) (h1s : hc1.is_successful = false)
    (h1t : hc1.error_type = some "timeout")
    (h2e : hc2.endpoint_id = eid) (h2s : hc2.is_successful = false)
    (h2t : hc2.error_type = some "timeout")
    (h3e : hc3.endpoint_id = eid) (h3s : hc3.is_successful = false)
    (h3t : hc3.error_type = some "timeout")
    (h4e : hc4.endpoint_id = eid) (h4s : hc4.is_successful = true) :
    (∃ a, getActiveAlert (runEngine defaultAlertConfig [hc1, hc2, hc3]).alerts
        eid "down" = some a ∧ a.severity = "high" ∧ a.is_active = true ∧
        a.alert_type = "down" ∧ a.endpoint_id = eid) ∧
    lookupCount (runEngine defaultAlertConfig [hc1, hc2, hc3]).consec eid = 3 ∧
    getActiveAlert (runEngine defaultAlertConfig [hc1, hc2, hc3, hc4]).alerts
      eid "down" = none ∧
    (∃ a, a ∈ (runEngine defaultAlertConfig [hc1, hc2, hc3, hc4]).alerts ∧
      a.alert_type = "down" ∧ a.endpoint_id = eid ∧ a.is_active = false ∧
      a.resolved_at = some hc4.checked_at) ∧
    lookupCount (runEngine defaultAlertConfig [hc1, hc2, hc3, hc4]).consec eid = 0 := by
  have e1 : processCheck defaultAlertConfig initEngineState hc1 =
      ⟨[], [(eid, 1)], [(eid, 0)]⟩ := by
    simp [processCheck, h1s, h1e, h1t, initEngineState, defaultAlertConfig,
      lookupCount, setCount]
  have e2 : processCheck defaultAlertConfig ⟨[], [(eid, 1)], [(eid, 0)]⟩ hc2 =
      ⟨[], [(eid, 2)], [(eid, 0)]⟩ := by
    simp [processCheck, h2s, h2e, h2t, defaultAlertConfig, lookupCount, setCount]
  have e3 : processCheck defaultAlertConfig ⟨[], [(eid, 2)], [(eid, 0)]⟩ hc3 =
      ⟨[{ id := none, endpoint_id := eid, alert_type := "down", severity := "high"
          title := "Endpoint down", message := "consecutive failure threshold reached"
          is_active := true, triggered_at := hc3.checked_at, resolved_at := none
          trigger_data := some [("consecutive_failures", Nat.repr 3)]
          created_at := hc3.checked_at }], [(eid, 3)], [(eid, 0)]⟩ := by
    simp [processCheck, h3s, h3e, h3t, defaultAlertConfig, lookupCount, setCount,
      triggerAlert, getActiveAlert, severityForDown]
  have e4 : processCheck defaultAlertConfig
      ⟨[{ id := none, endpoint_id := eid, alert_type := "down", severity := "high"
          title := "Endpoint down", message := "consecutive failure threshold reached"
          is_active := true, triggered_at := hc3.checked_at, resolved_at := none
          trigger_data := some [("consecutive_failures", Nat.repr 3)]
          created_at := hc3.checked_at }], [(eid, 3)], [(eid, 0)]⟩ hc4 =
      ⟨[{ id := none, endpoint_id := eid, alert_type := "down", severity := "high"
          title := "Endpoint down", message := "consecutive failure threshold reached"
          is_active := false, triggered_at := hc3.checked_at
          resolved_at := some hc4.checked_at
          trigger_data := some [("consecutive_failures", Nat.repr 3)]
          created_at := hc3.checked_at }],
        [(eid, 0)],
        if hc4.response_time_ms.any (fun rt => decide (1000 < rt)) then [(eid, 1)]
        else [(eid, 0)]⟩ := by
    rcases hr : hc4.response_time_ms with _ | rt
    · simp [processCheck, h4s, h4e, hr, defaultAlertConfig, lookupCount, setCount,
        resolveAlert, activeMatch]
    · by_cases hrt : (1000 : ℚ) < rt
      · simp [processCheck, h4s, h4e, hr, hrt, defaultAlertConfig, lookupCount,
          setCount, resolveAlert, activeMatch, triggerAlert, getActiveAlert]
      · simp [processCheck, h4s, h4e, hr, hrt, defaultAlertConfig, lookupCount,
          setCount, resolveAlert, activeMatch]
  have hrun3 : runEngine defaultAlertConfig [hc1, hc2, hc3] =
      ⟨[{ id := none, endpoint_id := eid, alert_type := "down", severity := "high"
          title := "Endpoint down", message := "consecutive failure threshold reached"
          is_active := true, triggered_at := hc3.checked_at, resolved_at := none
          trigger_data := some [("consecutive_failures", Nat.repr 3)]
          created_at := hc3.checked_at }], [(eid, 3)], [(eid, 0)]⟩ := by
    simp only [runEngine, List.foldl]
    rw [e1, e2, e3]
  have hrun4 : runEngine defaultAlertConfig [hc1, hc2, hc3, hc4] =
      ⟨[{ id := none, endpoint_id := eid, alert_type := "down", severity := "high"
          title := "Endpoint down", message := "consecutive failure threshold reached"
          is_active := false, triggered_at := hc3.checked_at
          resolved_at := some hc4.checked_at
          trigger_data := some [("consecutive_failures", Nat.repr 3)]
          created_at := hc3.checked_at }],
        [(eid, 0)],
        if hc4.response_time_ms.any (fun rt => decide (1000 < rt)) then [(eid, 1)]
        else [(eid, 0)]⟩ := by
    simp only [runEngine, List.foldl]
    rw [e1, e2, e3, e4]
  refine ⟨?_, ?_, ?_, ?_, ?_⟩
  · rw [hrun3]
    have hga : getActiveAlert
        [{ id := none, endpoint_id := eid, alert_type := "down", severity := "high"
           title := "Endpoint down", message := "consecutive failure threshold reached"
           is_active := true, triggered_at := hc3.checked_at, resolved_at := none
           trigger_data := some [("consecutive_failures", Nat.repr 3)]
           created_at := hc3.checked_at }] eid "down" =
        some { id := none, endpoint_id := eid, alert_type := "down", severity := "high"
               title := "Endpoint down", message := "consecutive failure threshold reached"
               is_active := true, triggered_at := hc3.checked_at, resolved_at := none
               trigger_data := some [("consecutive_failures", Nat.repr 3)]
               created_at := hc3.checked_at } := by
      simp [getActiveAlert, activeMatch]
    exact ⟨_, hga, rfl, rfl, rfl, rfl⟩
  · rw [hrun3]
    simp [lookupCount]
  · rw [hrun4]
    simp [getActiveAlert, activeMatch]
  · rw [hrun4]
    exact ⟨_, List.mem_cons_self _ _, rfl, rfl, rfl, rfl⟩
  · rw [hrun4]
    simp [lookupCount]

/-- Claim C7 witness: the lifecycle at concrete checks — three timeouts at
times 60, 120, 180 and a success at 240. -/
theorem c7_down_alert_lifecycle_witness :
    (∃ a, getActiveAlert (runEngine defaultAlertConfig
        [failCheckAt 60, failCheckAt 120, failCheckAt 180]).alerts 1 "down" =
        some a ∧ a.severity = "high" ∧ a.is_active = true ∧
        a.alert_type = "down" ∧ a.endpoint_id = 1) ∧
    lookupCount (runEngine defaultAlertConfig
      [failCheckAt 60, failCheckAt 120, failCheckAt 180]).consec 1 = 3 ∧
    getActiveAlert (runEngine defaultAlertConfig
      [failCheckAt 60, failCheckAt 120, failCheckAt 180, okCheckAt 240]).alerts
      1 "down" = none ∧
    (∃ a, a ∈ (runEngine defaultAlertConfig
        [failCheckAt 60, failCheckAt 120, failCheckAt 180, okCheckAt 240]).alerts ∧
      a.alert_type = "down" ∧ a.endpoint_id = 1 ∧ a.is_active = false ∧
      a.resolved_at = some (okCheckAt 240).checked_at) ∧
    lookupCount (runEngine defaultAlertConfig
      [failCheckAt 60, failCheckAt 120, failCheckAt 180, okCheckAt 240]).consec 1 = 0 :=
  c7_down_alert_lifecycle 1 (failCheckAt 60) (failCheckAt 120) (failCheckAt 180)
    (okCheckAt 240) rfl rfl rfl rfl rfl rfl rfl rfl rfl rfl rfl
